import Mathlib

/-!
Shallow embedding of the swil window library, X11/XCB backend.

Sources embedded: the geometry and DPI conversion module in
src/dpi.rs, the window configuration in src/lib.rs, the event
vocabulary in src/event.rs, and the platform layer in
src/platform/xcb.rs (scale factor resolution, the cached size, the
blocking event loop with its event translation, button mapping, and
the drop handler).

Modelling conventions: machine floats are modelled over the rationals
with rounding made explicit; the saturating Rust cast from a rounded
float to u32 is modelled explicitly (negative values clamp to 0 and
values above 2 to the power 32 minus 1 clamp to that maximum); the
16-bit signed coordinates of motion events are integers in the i16
range and the cast to u32 reduces modulo 2 to the power 32. Fallible
external calls (wait for event, destroy window) are passed in as
explicit Except values.
-/

/-- Rust expression (x).round() as u32 on a nonnegative-or-negative finite
float value x: round half away from zero (which agrees with round half up
for the nonnegative values arising here), then saturate the cast into the
u32 range. -/
def f32RoundToU32 (x : ℚ) : ℕ := (min (round x) (2 ^ 32 - 1)).toNat

/-- Rust cast of an i16 value to u32: sign-extend and reinterpret, that is
reduce modulo 2 to the power 32. -/
def i16AsU32 (x : ℤ) : ℕ := (x % 2 ^ 32).toNat

/-- A position in physical pixel units, from src/dpi.rs (x and y are u32). -/
structure PhysicalPosition where
  x : ℕ
  y : ℕ
deriving DecidableEq

/-- A size in physical pixel units, from src/dpi.rs (width and height are u32). -/
structure PhysicalSize where
  width : ℕ
  height : ℕ
deriving DecidableEq

/-- A position in scaled logical units, from src/dpi.rs (f32 fields). -/
structure LogicalPosition where
  x : ℚ
  y : ℚ
deriving DecidableEq

/-- A size in scaled logical units, from src/dpi.rs (f32 fields). -/
structure LogicalSize where
  width : ℚ
  height : ℚ
deriving DecidableEq

/-- PhysicalPosition::from_logical from src/dpi.rs. -/
def PhysicalPosition.from_logical (position : LogicalPosition) (scale_factor : ℚ) :
    PhysicalPosition :=
  ⟨f32RoundToU32 (position.x * scale_factor), f32RoundToU32 (position.y * scale_factor)⟩

/-- PhysicalPosition::to_logical from src/dpi.rs. -/
def PhysicalPosition.to_logical (self : PhysicalPosition) (scale_factor : ℚ) :
    LogicalPosition :=
  ⟨(self.x : ℚ) / scale_factor, (self.y : ℚ) / scale_factor⟩

/-- PhysicalSize::from_logical from src/dpi.rs. -/
def PhysicalSize.from_logical (size : LogicalSize) (scale_factor : ℚ) : PhysicalSize :=
  ⟨f32RoundToU32 (size.width * scale_factor), f32RoundToU32 (size.height * scale_factor)⟩

/-- PhysicalSize::to_logical from src/dpi.rs. -/
def PhysicalSize.to_logical (self : PhysicalSize) (scale_factor : ℚ) : LogicalSize :=
  ⟨(self.width : ℚ) / scale_factor, (self.height : ℚ) / scale_factor⟩

/-- LogicalPosition::to_physical from src/dpi.rs. -/
def LogicalPosition.to_physical (self : LogicalPosition) (scale_factor : ℚ) :
    PhysicalPosition :=
  PhysicalPosition.from_logical self scale_factor

/-- LogicalSize::to_physical from src/dpi.rs. -/
def LogicalSize.to_physical (self : LogicalSize) (scale_factor : ℚ) : PhysicalSize :=
  PhysicalSize.from_logical self scale_factor

/-- A size that is either physical or logical, from src/dpi.rs. -/
inductive Size where
  | physical (size : PhysicalSize)
  | logical (size : LogicalSize)
deriving DecidableEq

/-- A position that is either physical or logical, from src/dpi.rs. -/
inductive Position where
  | physical (position : PhysicalPosition)
  | logical (position : LogicalPosition)
deriving DecidableEq

/-- Initial configuration of a window, from src/lib.rs. -/
structure WindowConfig where
  title : String
  visible : Bool
  resizable : Bool
  size : Size
deriving DecidableEq

/-- WindowConfig::new from src/lib.rs: the default configuration. -/
def WindowConfig.new : WindowConfig :=
  ⟨"swil window", true, true, Size.logical ⟨750, 500⟩⟩

/-- The state of a button event, from src/event.rs. -/
inductive ButtonState where
  | pressed
  | released
deriving DecidableEq

/-- A keyboard input event, from src/event.rs (code is a u8 key code). -/
structure KeyboardInput where
  code : ℕ
  state : ButtonState
  text : Option String
deriving DecidableEq

/-- A mouse button, from src/event.rs. -/
inductive MouseButton where
  | left
  | middle
  | right
  | other (code : ℕ)
deriving DecidableEq

/-- A mouse button input event, from src/event.rs. -/
structure MouseInput where
  button : MouseButton
  state : ButtonState
deriving DecidableEq

/-- A mouse scroll direction, as used by src/platform/xcb.rs
(variants Up, Down, Left, Right). -/
inductive MouseScroll where
  | up
  | down
  | left
  | right
deriving DecidableEq

/-- An event received by a window, from src/event.rs together with the
MouseScroll variant used by src/platform/xcb.rs. -/
inductive Event where
  | resized (size : PhysicalSize)
  | closeRequested
  | focusChanged (focused : Bool)
  | keyboardInput (input : KeyboardInput)
  | cursorMoved (position : PhysicalPosition)
  | cursorEntered
  | cursorLeft
  | mouseScroll (scroll : MouseScroll)
  | mouseInput (input : MouseInput)
deriving DecidableEq

/-- An abstract transport-level error of the underlying connection library. -/
inductive ConnErr where
  | transport
deriving DecidableEq

/-- The error type from src/error.rs, each variant wrapping the underlying
transport error. -/
inductive Error where
  | xcbLoadFailed (err : ConnErr)
  | x11ConnectionFailed (err : ConnErr)
  | x11AtomFetchFailed (err : ConnErr)
  | x11AtomReplyError (err : ConnErr)
  | x11GenerateIdFailed (err : ConnErr)
  | x11CreateWindowFailed (err : ConnErr)
  | x11SetTitleFailed (err : ConnErr)
  | x11WindowCloseHookFailed (err : ConnErr)
  | x11SetSizeHintsFailed (err : ConnErr)
  | x11MapWindowFailed (err : ConnErr)
  | x11FlushFailed (err : ConnErr)
  | x11WaitForEventFailed (err : ConnErr)
deriving DecidableEq

/-- The atom set resolved at startup, from src/platform/xcb.rs
(atom_manager with WM_PROTOCOLS and WM_DELETE_WINDOW). -/
structure AtomSet where
  wm_protocols : ℕ
  wm_delete_window : ℕ
deriving DecidableEq

/-- The raw X11 events matched by the event loop in src/platform/xcb.rs.
Resize width and height are u16; motion coordinates are i16; client
message data carries five 32-bit data words and a format byte; the
unhandled constructor stands for every other raw event (the final
catch-all arm). -/
inductive X11Event where
  | resizeRequest (width height : ℕ)
  | clientMessage (format : ℕ) (data32 : Fin 5 → ℕ)
  | focusIn
  | focusOut
  | keyPress (detail : ℕ)
  | keyRelease (detail : ℕ)
  | motionNotify (event_x event_y : ℤ)
  | leaveNotify
  | enterNotify
  | buttonPress (detail : ℕ)
  | buttonRelease (detail : ℕ)
  | unhandled

/-- map_button_event from src/platform/xcb.rs. -/
def map_button_event (button : ℕ) (state : ButtonState) : Option Event :=
  match button with
  | 1 => some (Event.mouseInput ⟨MouseButton.left, state⟩)
  | 2 => some (Event.mouseInput ⟨MouseButton.middle, state⟩)
  | 3 => some (Event.mouseInput ⟨MouseButton.right, state⟩)
  | 4 =>
    match state with
    | ButtonState.pressed => some (Event.mouseScroll MouseScroll.up)
    | ButtonState.released => none
  | 5 =>
    match state with
    | ButtonState.pressed => some (Event.mouseScroll MouseScroll.down)
    | ButtonState.released => none
  | 6 =>
    match state with
    | ButtonState.pressed => some (Event.mouseScroll MouseScroll.left)
    | ButtonState.released => none
  | 7 =>
    match state with
    | ButtonState.pressed => some (Event.mouseScroll MouseScroll.right)
    | ButtonState.released => none
  | other => some (Event.mouseInput ⟨MouseButton.other other, state⟩)

/-- The translation arm of the event loop in src/platform/xcb.rs: maps one
raw event to at most one normalized event, and returns the cached size as
updated by the resize arm (the only arm that writes the size cell). -/
def processEvent (atoms : AtomSet) (size : PhysicalSize) :
    X11Event → Option Event × PhysicalSize
  | X11Event.resizeRequest width height =>
    (some (Event.resized ⟨width, height⟩), ⟨width, height⟩)
  | X11Event.clientMessage format data32 =>
    if format = 32 ∧ data32 0 = atoms.wm_delete_window then
      (some Event.closeRequested, size)
    else
      (none, size)
  | X11Event.focusIn => (some (Event.focusChanged true), size)
  | X11Event.focusOut => (some (Event.focusChanged false), size)
  | X11Event.keyPress detail =>
    (some (Event.keyboardInput ⟨detail, ButtonState.pressed, none⟩), size)
  | X11Event.keyRelease detail =>
    (some (Event.keyboardInput ⟨detail, ButtonState.released, none⟩), size)
  | X11Event.motionNotify ex ey =>
    (some (Event.cursorMoved ⟨i16AsU32 ex, i16AsU32 ey⟩), size)
  | X11Event.leaveNotify => (some Event.cursorLeft, size)
  | X11Event.enterNotify => (some Event.cursorEntered, size)
  | X11Event.buttonPress detail => (map_button_event detail ButtonState.pressed, size)
  | X11Event.buttonRelease detail => (map_button_event detail ButtonState.released, size)
  | X11Event.unhandled => (none, size)

/-- Outcome of running the event loop against a finite trace of results of
wait_for_event. Pending means the trace is exhausted and the loop would
block for the next event. -/
inductive LoopOutcome (σ : Type) where
  | exited (size : PhysicalSize) (hstate : σ)
  | fatal (err : Error) (size : PhysicalSize) (hstate : σ)
  | pending (size : PhysicalSize) (hstate : σ)

/-- Window::event_loop from src/platform/xcb.rs, run against a finite trace
of wait_for_event results. The caller handler is modelled with an explicit
state of type σ together with the exit flag it leaves (the flag is fresh
and false for each dispatch, so only the returned Bool matters). -/
def eventLoop {σ : Type} (atoms : AtomSet) (handler : σ → Event → σ × Bool) :
    List (Except ConnErr X11Event) → PhysicalSize → σ → LoopOutcome σ
  | [], size, hstate => LoopOutcome.pending size hstate
  | Except.error err :: _, size, hstate =>
    LoopOutcome.fatal (Error.x11WaitForEventFailed err) size hstate
  | Except.ok raw :: rest, size, hstate =>
    match processEvent atoms size raw with
    | (none, size1) => eventLoop atoms handler rest size1 hstate
    | (some event, size1) =>
      let step := handler hstate event
      if step.2 then LoopOutcome.exited size1 step.1
      else eventLoop atoms handler rest size1 step.1

/-- The Window state owned after creation, from src/platform/xcb.rs (the
connection handle itself is external and not part of the state). -/
structure Window where
  screen : ℤ
  window : ℕ
  scale_factor : ℚ
  atoms : AtomSet
  size : PhysicalSize

/-- A request sent to the X11 server, as far as the claims need them. -/
inductive Request where
  | destroyWindow (window : ℕ)
deriving DecidableEq

/-- Window::size from src/platform/xcb.rs: swaps the cached size out of the
cell, writes it back, and returns it; the list of requests it sends to the
server is empty (no round trip). -/
def Window.sizeFn (self : Window) : Except Error PhysicalSize × Window × List Request :=
  let size := self.size
  (Except.ok size, { self with size := size }, [])

/-- Outcome of the drop handler: a normal return or a panic. -/
inductive DropOutcome where
  | returned
  | panicked
deriving DecidableEq

/-- The Drop implementation for Window from src/platform/xcb.rs: issues one
destroy_window request and unwraps the result, so a failed destroy panics. -/
def windowDrop (self : Window) (destroyResult : Except ConnErr Unit) :
    List Request × DropOutcome :=
  ([Request.destroyWindow self.window],
   match destroyResult with
   | Except.ok _ => DropOutcome.returned
   | Except.error _ => DropOutcome.panicked)

/-- The squared pixels-per-millimeter value of the screen, the argument of
the square root taken in Window::new in src/platform/xcb.rs. -/
def ppmmSq (width_px height_px width_mm height_mm : ℚ) : ℚ :=
  (width_px * height_px) / (width_mm * height_mm)

/-- The fallback branch of scale factor resolution in Window::new in
src/platform/xcb.rs, phrased over the ppmm value (the square root of
ppmmSq, the one nonrational step): dpi_factor is the rounded value of
ppmm times 12 times 25.4 over 96, divided by 12 and floored at 1, and a
value above 20 falls back to 1. -/
def dpiFactorFallback (ppmm : ℚ) : ℚ :=
  let dpi_factor := max ((round (ppmm * (12 * 25.4 / 96)) : ℚ) / 12) 1
  if dpi_factor ≤ 20 then dpi_factor else 1

/-- Scale factor resolution from Window::new in src/platform/xcb.rs: with
an Xft.dpi value present the factor is dpi over 96, otherwise the fallback
computed from the screen dimensions. -/
def scale_factor_resolve (xft_dpi : Option ℕ) (ppmm : ℚ) : ℚ :=
  match xft_dpi with
  | some dpi => (dpi : ℚ) / 96
  | none => dpiFactorFallback ppmm

/-- The fallback formula exactly as the specification words it, for
comparison with the source: raw is ppmm times (12.0 times 25.4 over 96.0),
and the factor is round(raw times 12) over 12, floored at 1.0. Stated from
the words of the spec, not from the source. -/
def specFallbackFactor (ppmm : ℚ) : ℚ :=
  let raw := ppmm * (12 * 25.4 / 96)
  max ((round (raw * 12) : ℚ) / 12) 1

/-- Quantization of a value to the nearest multiple of one twelfth. -/
def nearestTwelfth (x : ℚ) : ℚ := (round (x * 12) : ℚ) / 12

/-- Concrete atom set fixture used by witnesses. -/
def atomsFix : AtomSet := ⟨1, 2⟩

/-- Concrete cached size fixture used by witnesses. -/
def sizeFix : PhysicalSize := ⟨100, 200⟩

/-- Concrete window fixture used by witnesses. -/
def windowFix : Window := ⟨0, 7, 1, atomsFix, sizeFix⟩

/-- Concrete handler fixture that always sets the exit flag. -/
def exitHandler : Unit → Event → Unit × Bool := fun s _ => (s, true)

/-- Unfolding equation for one successful wait step of the event loop. -/
theorem eventLoop_cons_ok {σ : Type} (atoms : AtomSet) (handler : σ → Event → σ × Bool)
    (raw : X11Event) (rest : List (Except ConnErr X11Event))
    (size : PhysicalSize) (hstate : σ) :
    eventLoop atoms handler (Except.ok raw :: rest) size hstate =
      match processEvent atoms size raw with
      | (none, size1) => eventLoop atoms handler rest size1 hstate
      | (some event, size1) =>
        let step := handler hstate event
        if step.2 then LoopOutcome.exited size1 step.1
        else eventLoop atoms handler rest size1 step.1 := rfl

/-- Claim C1: a raw client-message dispatches exactly one CloseRequested
event precisely when its format field is 32 and its first 32-bit datum is
the resolved WM_DELETE_WINDOW atom, and dispatches no event in every
other case. -/
theorem clientMessage_close_spec (atoms : AtomSet) (size : PhysicalSize)
    (format : ℕ) (data32 : Fin 5 → ℕ) :
    ((processEvent atoms size (X11Event.clientMessage format data32)).1
        = some Event.closeRequested
      ↔ (format = 32 ∧ data32 0 = atoms.wm_delete_window))
    ∧ ((processEvent atoms size (X11Event.clientMessage format data32)).1 = none
      ↔ ¬ (format = 32 ∧ data32 0 = atoms.wm_delete_window)) := by
  by_cases h : format = 32 ∧ data32 0 = atoms.wm_delete_window <;>
    constructor <;> simp [processEvent, h]

/-- Claim C2: the loop returns a fatal X11WaitForEventFailed error at the
first failing wait, independently of the remaining trace (no retry); when
the handler signals exit on a dispatched event, the loop returns exited at
once, independently of the remaining trace (no further blocking wait); and
on any trace the outcome is pending (trace exhausted while the loop is
still blocked), an exit requested by the handler, or a wait failure, with
no other error kind ever produced. -/
theorem event_loop_exit_paths {σ : Type} (atoms : AtomSet)
    (handler : σ → Event → σ × Bool) :
    (∀ (err : ConnErr) (rest : List (Except ConnErr X11Event))
        (size : PhysicalSize) (s : σ),
      eventLoop atoms handler (Except.error err :: rest) size s
        = LoopOutcome.fatal (Error.x11WaitForEventFailed err) size s)
    ∧ (∀ (raw : X11Event) (rest : List (Except ConnErr X11Event))
        (size : PhysicalSize) (s : σ) (event : Event) (size1 : PhysicalSize),
        processEvent atoms size raw = (some event, size1) →
        (handler s event).2 = true →
        eventLoop atoms handler (Except.ok raw :: rest) size s
          = LoopOutcome.exited size1 (handler s event).1)
    ∧ (∀ (trace : List (Except ConnErr X11Event)) (size : PhysicalSize) (s : σ),
        (∃ sz st, eventLoop atoms handler trace size s = LoopOutcome.pending sz st)
        ∨ (∃ sz st, eventLoop atoms handler trace size s = LoopOutcome.exited sz st)
        ∨ (∃ err sz st, eventLoop atoms handler trace size s
            = LoopOutcome.fatal (Error.x11WaitForEventFailed err) sz st)) := by
  refine ⟨fun err rest size s => rfl, ?_, ?_⟩
  · intro raw rest size s event size1 h1 h2
    rw [eventLoop_cons_ok, h1]
    simp [h2]
  · intro trace
    induction trace with
    | nil => exact fun size s => Or.inl ⟨size, s, rfl⟩
    | cons head rest ih =>
      intro size s
      rcases head with err | raw
      · exact Or.inr (Or.inr ⟨err, size, s, rfl⟩)
      · rw [eventLoop_cons_ok]
        rcases hp : processEvent atoms size raw with ⟨oev, size1⟩
        rcases oev with _ | ev
        · exact ih size1 s
        · dsimp only
          by_cases hex : (handler s ev).2
          · rw [if_pos hex]
            exact Or.inr (Or.inl ⟨size1, _, rfl⟩)
          · rw [if_neg hex]
            exact ih size1 (handler s ev).1

/-- Witness for claim C2: a two-event trace with a handler that always
requests exit terminates at the first event, never reaching the second. -/
theorem event_loop_exit_paths_witness :
    eventLoop atomsFix exitHandler
        [Except.ok X11Event.focusIn, Except.ok X11Event.focusIn] sizeFix ()
      = LoopOutcome.exited sizeFix () :=
  (event_loop_exit_paths atomsFix exitHandler).2.1 X11Event.focusIn
    [Except.ok X11Event.focusIn] sizeFix () (Event.focusChanged true) sizeFix rfl rfl

/-- Claim C3 counterexample: for the fixture screen of 1000 by 1000 pixels
over 100 by 100 millimeters the ppmm value is 10 (it is nonnegative and
its square is the pixel over millimeter ratio), and there the resolver
disagrees with the formula as the claim words it (round of raw times 12,
divided by 12): the code yields 8/3 while the claimed formula yields
127/4. -/
theorem scale_factor_formula_counterexample :
    (0 ≤ (10 : ℚ) ∧ (10 : ℚ) ^ 2 = ppmmSq 1000 1000 100 100)
    ∧ scale_factor_resolve none 10 = 8 / 3
    ∧ specFallbackFactor 10 = 127 / 4
    ∧ scale_factor_resolve none 10 ≠ specFallbackFactor 10 := by
  have h1 : scale_factor_resolve none 10 = 8 / 3 := by
    norm_num [scale_factor_resolve, dpiFactorFallback, round_eq]
  have h2 : specFallbackFactor 10 = 127 / 4 := by
    norm_num [specFallbackFactor, round_eq]
  refine ⟨⟨by norm_num, by norm_num [ppmmSq]⟩, h1, h2, ?_⟩
  rw [h1, h2]
  norm_num

/-- Claim C3 amended: when Xft.dpi is present the scale factor is dpi over
96; when it is absent, the factor is the quantization of ppmm times 25.4
over 96 to the nearest 1/12 step (the code writes this as the rounded
value of ppmm times (12 times 25.4 over 96), divided by 12), floored at
1.0, with a value above 20 replaced by 1.0. -/
theorem scale_factor_formula (ppmm : ℚ) (dpi : ℕ) (p : ℚ) :
    scale_factor_resolve (some dpi) p = (dpi : ℚ) / 96
    ∧ scale_factor_resolve none ppmm =
        (let factor := max (nearestTwelfth (ppmm * 25.4 / 96)) 1
         if factor ≤ 20 then factor else 1) := by
  refine ⟨rfl, ?_⟩
  have h : ppmm * 25.4 / 96 * 12 = ppmm * (12 * 25.4 / 96) := by ring
  simp only [scale_factor_resolve, dpiFactorFallback, nearestTwelfth, h]

/-- Claim C4: buttons 1, 2 and 3 map to MouseInput Left, Middle and Right
with the press or release state; buttons 4 to 7 map to MouseScroll Up,
Down, Left and Right on press and to no event on release; every other
button code maps to MouseInput Other(code) with the state. -/
theorem map_button_event_spec (state : ButtonState) :
    map_button_event 1 state = some (Event.mouseInput ⟨MouseButton.left, state⟩)
    ∧ map_button_event 2 state = some (Event.mouseInput ⟨MouseButton.middle, state⟩)
    ∧ map_button_event 3 state = some (Event.mouseInput ⟨MouseButton.right, state⟩)
    ∧ map_button_event 4 ButtonState.pressed = some (Event.mouseScroll MouseScroll.up)
    ∧ map_button_event 5 ButtonState.pressed = some (Event.mouseScroll MouseScroll.down)
    ∧ map_button_event 6 ButtonState.pressed = some (Event.mouseScroll MouseScroll.left)
    ∧ map_button_event 7 ButtonState.pressed = some (Event.mouseScroll MouseScroll.right)
    ∧ map_button_event 4 ButtonState.released = none
    ∧ map_button_event 5 ButtonState.released = none
    ∧ map_button_event 6 ButtonState.released = none
    ∧ map_button_event 7 ButtonState.released = none
    ∧ (∀ b : ℕ, ¬ (1 ≤ b ∧ b ≤ 7) →
        map_button_event b state
          = some (Event.mouseInput ⟨MouseButton.other b, state⟩)) := by
  refine ⟨rfl, rfl, rfl, rfl, rfl, rfl, rfl, rfl, rfl, rfl, rfl, ?_⟩
  intro b hb
  rcases b with _ | _ | _ | _ | _ | _ | _ | _ | b
  · rfl
  · exact absurd (by omega) hb
  · exact absurd (by omega) hb
  · exact absurd (by omega) hb
  · exact absurd (by omega) hb
  · exact absurd (by omega) hb
  · exact absurd (by omega) hb
  · exact absurd (by omega) hb
  · rfl

/-- Witness for claim C4: button code 9 is outside 1 to 7 and maps to
MouseInput Other(9). -/
theorem map_button_event_spec_witness :
    map_button_event 9 ButtonState.pressed
      = some (Event.mouseInput ⟨MouseButton.other 9, ButtonState.pressed⟩) :=
  (map_button_event_spec ButtonState.pressed).2.2.2.2.2.2.2.2.2.2.2 9 (by omega)

/-- Rounding then casting back stays within half a physical pixel, for a
nonnegative value and a positive scale, when the rounded value does not
saturate the u32 cast. -/
theorem f32RoundToU32_round_close (x s : ℚ) (hx : 0 ≤ x) (hs : 0 < s)
    (hb : round (x * s) ≤ 2 ^ 32 - 1) :
    |(f32RoundToU32 (x * s) : ℚ) / s - x| ≤ 1 / (2 * s) := by
  have hxs : 0 ≤ x * s := mul_nonneg hx hs.le
  have h0 : (0 : ℤ) ≤ round (x * s) := by
    have h1 : (0 : ℤ) ≤ ⌊x * s⌋ := Int.floor_nonneg.mpr hxs
    have h2 : ⌊x * s⌋ ≤ round (x * s) := by
      rw [round_eq]
      exact Int.floor_mono (by linarith)
    omega
  have hcast : (f32RoundToU32 (x * s) : ℚ) = ((round (x * s) : ℤ) : ℚ) := by
    unfold f32RoundToU32
    rw [min_eq_left hb]
    exact_mod_cast congrArg (fun n : ℤ => (n : ℚ)) (Int.toNat_of_nonneg h0)
  have habs : |((round (x * s) : ℤ) : ℚ) - x * s| ≤ 1 / 2 := by
    rw [abs_sub_comm]
    exact abs_sub_round (x * s)
  have key : ((round (x * s) : ℤ) : ℚ) / s - x = (((round (x * s) : ℤ) : ℚ) - x * s) / s := by
    field_simp
    ring
  rw [hcast, key, abs_div, abs_of_pos hs]
  calc |((round (x * s) : ℤ) : ℚ) - x * s| / s ≤ (1 / 2) / s := by gcongr
    _ = 1 / (2 * s) := by ring

/-- Claim C5 counterexample: the logical size with width 2 to the power 33
and height 0 is nonnegative and the scale 1 is positive, yet the
saturating u32 cast clamps the physical width to 2 to the power 32 minus
1, so the round trip misses the original width by 2 to the power 32 plus
1 logical units, far beyond one unit of rounding error. -/
theorem round_trip_counterexample :
    0 ≤ (LogicalSize.mk (2 ^ 33) 0).width ∧ (0 : ℚ) < 1
    ∧ (((LogicalSize.mk (2 ^ 33) 0).to_physical 1).to_logical 1).width
        - (LogicalSize.mk (2 ^ 33) 0).width = -(2 ^ 32 + 1)
    ∧ ¬ |(((LogicalSize.mk (2 ^ 33) 0).to_physical 1).to_logical 1).width
        - (LogicalSize.mk (2 ^ 33) 0).width| ≤ 1 := by
  have hcast : f32RoundToU32 (2 ^ 33 * 1) = 2 ^ 32 - 1 := by
    norm_num [f32RoundToU32, round_eq]
    rfl
  have h : (((LogicalSize.mk (2 ^ 33) 0).to_physical 1).to_logical 1).width
      - (LogicalSize.mk (2 ^ 33) 0).width = -(2 ^ 32 + 1) := by
    simp only [LogicalSize.to_physical, PhysicalSize.from_logical, PhysicalSize.to_logical,
      hcast]
    norm_num
  refine ⟨by norm_num, by norm_num, h, ?_⟩
  rw [h]
  intro hle
  rw [abs_neg, abs_of_pos (by positivity)] at hle
  linarith

/-- Claim C5 amended: for every logical size and position with nonnegative
components and positive scale, when each scaled component rounds to at
most 2 to the power 32 minus 1 (no u32 saturation), the logical to
physical to logical round trip stays within half a physical pixel, that
is 1/(2s) logical units, of the original, and every component produced by
either conversion is nonnegative (physical components are natural
numbers by construction; the logical results are nonnegative). -/
theorem round_trip (v : LogicalSize) (p : LogicalPosition) (s : ℚ)
    (hs : 0 < s) (hw : 0 ≤ v.width) (hh : 0 ≤ v.height)
    (hx : 0 ≤ p.x) (hy : 0 ≤ p.y)
    (bw : round (v.width * s) ≤ 2 ^ 32 - 1)
    (bh : round (v.height * s) ≤ 2 ^ 32 - 1)
    (bx : round (p.x * s) ≤ 2 ^ 32 - 1)
    (hby : round (p.y * s) ≤ 2 ^ 32 - 1) :
    |((v.to_physical s).to_logical s).width - v.width| ≤ 1 / (2 * s)
    ∧ |((v.to_physical s).to_logical s).height - v.height| ≤ 1 / (2 * s)
    ∧ |((p.to_physical s).to_logical s).x - p.x| ≤ 1 / (2 * s)
    ∧ |((p.to_physical s).to_logical s).y - p.y| ≤ 1 / (2 * s)
    ∧ 0 ≤ ((v.to_physical s).to_logical s).width
    ∧ 0 ≤ ((v.to_physical s).to_logical s).height
    ∧ 0 ≤ ((p.to_physical s).to_logical s).x
    ∧ 0 ≤ ((p.to_physical s).to_logical s).y := by
  refine ⟨f32RoundToU32_round_close v.width s hw hs bw,
    f32RoundToU32_round_close v.height s hh hs bh,
    f32RoundToU32_round_close p.x s hx hs bx,
    f32RoundToU32_round_close p.y s hy hs hby,
    ?_, ?_, ?_, ?_⟩ <;>
  exact div_nonneg (Nat.cast_nonneg _) hs.le

/-- Witness for claim C5: the logical size (10/3, 5) and position (1/2, 0)
at scale 2 round trip to within a quarter of a logical unit. -/
theorem round_trip_witness :
    |(((LogicalSize.mk (10 / 3) 5).to_physical 2).to_logical 2).width - 10 / 3|
        ≤ 1 / (2 * 2)
    ∧ |(((LogicalSize.mk (10 / 3) 5).to_physical 2).to_logical 2).height - 5|
        ≤ 1 / (2 * 2)
    ∧ |(((LogicalPosition.mk (1 / 2) 0).to_physical 2).to_logical 2).x - 1 / 2|
        ≤ 1 / (2 * 2)
    ∧ |(((LogicalPosition.mk (1 / 2) 0).to_physical 2).to_logical 2).y - 0|
        ≤ 1 / (2 * 2)
    ∧ 0 ≤ (((LogicalSize.mk (10 / 3) 5).to_physical 2).to_logical 2).width
    ∧ 0 ≤ (((LogicalSize.mk (10 / 3) 5).to_physical 2).to_logical 2).height
    ∧ 0 ≤ (((LogicalPosition.mk (1 / 2) 0).to_physical 2).to_logical 2).x
    ∧ 0 ≤ (((LogicalPosition.mk (1 / 2) 0).to_physical 2).to_logical 2).y :=
  round_trip (LogicalSize.mk (10 / 3) 5) (LogicalPosition.mk (1 / 2) 0) 2
    (by norm_num) (by norm_num) (by norm_num) (by norm_num) (by norm_num)
    (by norm_num [round_eq]) (by norm_num [round_eq])
    (by norm_num [round_eq]) (by norm_num [round_eq])

/-- Claim C6 counterexample: a present DPI preference of 0 yields the scale
factor 0/96 = 0, which is not positive. -/
theorem scale_positive_counterexample :
    scale_factor_resolve (some 0) 0 = 0
    ∧ ¬ (0 < scale_factor_resolve (some 0) 0) := by
  norm_num [scale_factor_resolve]

/-- Claim C6 amended: scale factor resolution is a total function; with a
DPI preference present the result dpi/96 is positive whenever the stored
preference is nonzero (a zero preference yields scale 0); in the fallback
the result is at least 1, and a quantized value above 20 is replaced by
1, so the fallback result always lies between 1 and 20. -/
theorem scale_factor_bounds (ppmm : ℚ) (dpi : ℕ) (p : ℚ) (hdpi : 0 < dpi) :
    0 < scale_factor_resolve (some dpi) p
    ∧ 1 ≤ scale_factor_resolve none ppmm
    ∧ scale_factor_resolve none ppmm ≤ 20 := by
  refine ⟨?_, ?_, ?_⟩
  · have h : (0 : ℚ) < (dpi : ℚ) := by exact_mod_cast hdpi
    simp only [scale_factor_resolve]
    positivity
  · simp only [scale_factor_resolve, dpiFactorFallback]
    split
    · exact le_max_right _ _
    · exact le_refl 1
  · simp only [scale_factor_resolve, dpiFactorFallback]
    split
    · assumption
    · norm_num

/-- Witness for claim C6: the DPI preference 144 yields the positive scale
factor 3/2, and the fallback at ppmm 10 lies between 1 and 20. -/
theorem scale_factor_bounds_witness :
    0 < scale_factor_resolve (some 144) 0
    ∧ 1 ≤ scale_factor_resolve none 10
    ∧ scale_factor_resolve none 10 ≤ 20 :=
  scale_factor_bounds 10 144 0 (by norm_num)

/-- Claim C7: Window::size returns the cached physical size, sends no
request to the server and leaves the window unchanged; a resize-request
raw event updates the cached size to the event dimensions and dispatches
Resized carrying exactly that updated size, and the event loop continues
(or exits) with the updated cache; every raw event other than a
resize-request leaves the cached size unchanged. -/
theorem cached_size_spec {σ : Type} (w : Window) (atoms : AtomSet)
    (size : PhysicalSize) (width height : ℕ)
    (handler : σ → Event → σ × Bool) (rest : List (Except ConnErr X11Event)) (s : σ) :
    w.sizeFn = (Except.ok w.size, w, [])
    ∧ processEvent atoms size (X11Event.resizeRequest width height)
        = (some (Event.resized ⟨width, height⟩), ⟨width, height⟩)
    ∧ eventLoop atoms handler
          (Except.ok (X11Event.resizeRequest width height) :: rest) size s
        = (let step := handler s (Event.resized ⟨width, height⟩)
           if step.2 then LoopOutcome.exited ⟨width, height⟩ step.1
           else eventLoop atoms handler rest ⟨width, height⟩ step.1)
    ∧ (∀ raw : X11Event, (∀ a b : ℕ, raw ≠ X11Event.resizeRequest a b) →
        (processEvent atoms size raw).2 = size) := by
  refine ⟨rfl, rfl, rfl, ?_⟩
  intro raw hraw
  cases raw with
  | resizeRequest a b => exact absurd rfl (hraw a b)
  | clientMessage format data32 =>
    simp only [processEvent]
    split <;> rfl
  | _ => rfl

/-- Witness for claim C7: a focus-in raw event leaves the cached size
fixture unchanged. -/
theorem cached_size_spec_witness :
    (processEvent atomsFix sizeFix X11Event.focusIn).2 = sizeFix :=
  (cached_size_spec windowFix atomsFix sizeFix 1 1 exitHandler [] ()).2.2.2
    X11Event.focusIn (fun _ _ h => X11Event.noConfusion h)

/-- Claim C8 counterexample: when the destroy request fails during drop,
the modelled outcome is a panic (the source unwraps the result of
destroy_window), not a silent fire-and-forget return. -/
theorem drop_counterexample :
    (windowDrop windowFix (Except.error ConnErr.transport)).2 = DropOutcome.panicked
    ∧ (windowDrop windowFix (Except.error ConnErr.transport)).2
        ≠ DropOutcome.returned := by
  refine ⟨rfl, ?_⟩
  intro h
  exact DropOutcome.noConfusion h

/-- Claim C8 amended: dropping the window issues exactly one destroy-window
request, for the window identifier; a successful destroy returns
normally; a failed destroy is not returned to the caller as an error
value but panics through unwrap. -/
theorem drop_behavior (w : Window) (r : Except ConnErr Unit) :
    (windowDrop w r).1 = [Request.destroyWindow w.window]
    ∧ ((windowDrop w r).2 = DropOutcome.returned ↔ ∃ u, r = Except.ok u)
    ∧ ((windowDrop w r).2 = DropOutcome.panicked ↔ ∃ e, r = Except.error e) := by
  rcases r with e | u <;> simp [windowDrop]
  exact ⟨ConnErr.transport, trivial⟩

/-- Claim C9 counterexample: the default configuration size is the logical
size 750 by 500, not 750 by 400. -/
theorem default_config_counterexample :
    WindowConfig.new.size = Size.logical ⟨750, 500⟩
    ∧ WindowConfig.new.size ≠ Size.logical ⟨750, 400⟩ := by
  refine ⟨rfl, ?_⟩
  intro h
  injection h with h1
  have h500 : (500 : ℚ) = 400 := congrArg LogicalSize.height h1
  norm_num at h500

/-- Claim C9 amended: a WindowConfig built with default values has the
title swil window, is visible, is resizable, and has the initial logical
size 750 by 500. -/
theorem default_config :
    WindowConfig.new.title = "swil window"
    ∧ WindowConfig.new.visible = true
    ∧ WindowConfig.new.resizable = true
    ∧ WindowConfig.new.size = Size.logical ⟨750, 500⟩ :=
  ⟨rfl, rfl, rfl, rfl⟩

/-- Claim C10: a pointer-motion event whose 16-bit coordinates are in range
with a negative x dispatches CursorMoved with the coordinates converted
through i16AsU32, the negative x becomes x plus 2 to the power 32
(sign-extension reinterpreted as unsigned), and the reported value is at
least 2 to the power 32 minus 2 to the power 15, so it is never a
clamped or small signed value. -/
theorem motion_negative_coordinate (atoms : AtomSet) (size : PhysicalSize)
    (x y : ℤ) (hx1 : -(2 ^ 15) ≤ x) (hx2 : x < 0) :
    processEvent atoms size (X11Event.motionNotify x y)
      = (some (Event.cursorMoved ⟨i16AsU32 x, i16AsU32 y⟩), size)
    ∧ (i16AsU32 x : ℤ) = x + 2 ^ 32
    ∧ 2 ^ 32 - 2 ^ 15 ≤ (i16AsU32 x : ℤ) := by
  refine ⟨rfl, ?_, ?_⟩ <;> (unfold i16AsU32; omega)

/-- Witness for claim C10: the coordinate minus 1 is reported as
4294967295. -/
theorem motion_negative_coordinate_witness :
    i16AsU32 (-1) = 4294967295
    ∧ processEvent atomsFix sizeFix (X11Event.motionNotify (-1) (-1))
        = (some (Event.cursorMoved ⟨i16AsU32 (-1), i16AsU32 (-1)⟩), sizeFix) :=
  ⟨by norm_num [i16AsU32]; rfl,
   (motion_negative_coordinate atomsFix sizeFix (-1) (-1) (by norm_num)
     (by norm_num)).1⟩
